import Mathlib

/-!
Shallow embedding of the `nitme` Go static analyzer (`src/nitme.go`).

The analyzer walks a parsed Go syntax tree, visiting every `*ast.AssignStmt`
node (the inspector's node filter), and for each one runs a three-filter
pattern match; on a full match it reports one diagnostic with one suggested
fix containing one text edit.

The embedding models the fragment of `go/ast` the analyzer inspects:

* `Expr` covers the expression shapes the runtime type assertions
  distinguish: `*ast.Ident`, `*ast.CompositeLit`, `*ast.ArrayType`,
  `*ast.MapType`, and a catch-all for every other expression kind.
  Note that in `go/ast` a fixed-size array type `[3]int` is also an
  `*ast.ArrayType`, with a non-nil `Len` field; this is modelled by the
  `arrLen : Option Expr` field of `Expr.arrayType`.
* `CompositeLit.Elts` is a Go slice that is nil for a literal written `{}`
  and non-nil (possibly of length 0 in principle) otherwise; this nil /
  present distinction is modelled by `Option (List Expr)`.
* Go panics (failed unchecked type assertions `x.(*ast.Ident)`, and
  out-of-range indexing `Rhs[0]`) are modelled as `Except.error` with the
  panic message; a panic in the per-node callback unwinds through
  `inspector.Preorder`, aborting the traversal, which `run` models by
  propagating the error and dropping the rest of the node list.
-/

namespace Nitme

/-- Source position, modelling `go/token.Pos` (a file offset). -/
abbrev Pos := Nat

/-- Go assignment operator token (`ast.AssignStmt.Tok`): `:=` is
`token.DEFINE`, `=` is `token.ASSIGN`; compound operators such as `+=` are
collapsed into `otherTok`.  `src/nitme.go` never reads this field. -/
inductive Tok where
  | define
  | assign
  | otherTok
deriving DecidableEq

/-- The fragment of `go/ast` expressions the analyzer's runtime type
assertions distinguish.  Every constructor carries the node's start and end
offsets (`Pos()` / `End()`). -/
inductive Expr where
  /-- `*ast.Ident`: a plain identifier with its name. -/
  | ident (name : String) (pos endP : Pos)
  /-- `*ast.CompositeLit`: declared type, and the `Elts` slice, which is
  nil (`none`) exactly when the literal was written with empty braces. -/
  | compositeLit (typ : Expr) (elts : Option (List Expr)) (pos endP : Pos)
  /-- `*ast.ArrayType`: `arrLen` is the `Len` field, nil (`none`) for a
  slice type `[]T` and non-nil for a fixed-size array type `[3]T`. -/
  | arrayType (arrLen : Option Expr) (elt : Expr) (pos endP : Pos)
  /-- `*ast.MapType`: a mapping type such as `map[string]int`. -/
  | mapType (key val : Expr) (pos endP : Pos)
  /-- Any other expression kind (call, binary expression, index
  expression, basic literal, ...). -/
  | otherExpr (pos endP : Pos)

/-- Start offset of an expression (`ast.Expr.Pos()`). -/
def Expr.pos : Expr → Pos
  | .ident _ p _ => p
  | .compositeLit _ _ p _ => p
  | .arrayType _ _ p _ => p
  | .mapType _ _ p _ => p
  | .otherExpr p _ => p

/-- End offset of an expression (`ast.Expr.End()`). -/
def Expr.endP : Expr → Pos
  | .ident _ _ e => e
  | .compositeLit _ _ _ e => e
  | .arrayType _ _ _ e => e
  | .mapType _ _ _ e => e
  | .otherExpr _ e => e

/-- `*ast.AssignStmt`: left-hand sides, the assignment token, right-hand
sides.  The Go parser always produces non-empty `Lhs` and `Rhs`, but the
embedding does not bake that in: the analyzer's unguarded `Rhs[0]` /
`Lhs[0]` indexing is modelled faithfully. -/
structure AssignStmt where
  lhs : List Expr
  tok : Tok
  rhs : List Expr

/-- `ast.AssignStmt.Pos()`: the start of the first left-hand side.
(The 0 default for an empty `Lhs` is unreachable on parser output.) -/
def AssignStmt.pos (a : AssignStmt) : Pos :=
  match a.lhs with
  | e :: _ => e.pos
  | [] => 0

/-- `ast.AssignStmt.End()`: the end of the last right-hand side.
(The 0 default for an empty `Rhs` is unreachable on parser output.) -/
def AssignStmt.endP (a : AssignStmt) : Pos :=
  match a.rhs.getLast? with
  | some e => e.endP
  | none => 0

/-- `analysis.TextEdit`: replace the source bytes in `[pos, endP)` with
`newText`. -/
structure TextEdit where
  pos : Pos
  endP : Pos
  newText : String
deriving DecidableEq

/-- `analysis.SuggestedFix`: a fix label and its ordered text edits. -/
structure SuggestedFix where
  message : String
  textEdits : List TextEdit
deriving DecidableEq

/-- `analysis.Diagnostic`: position, message, suggested fixes. -/
structure Diagnostic where
  pos : Pos
  message : String
  suggestedFixes : List SuggestedFix
deriving DecidableEq

/-- The `report` function of `src/nitme.go`: builds the diagnostic handed
to `pass.Report`.  `fmt.Sprintf "var %s []%s" sliceName eltName` is the
concatenation `"var " ++ sliceName ++ " []" ++ eltName`. -/
def report (n : AssignStmt) (sliceName eltName : String) : Diagnostic :=
  { pos := n.pos
    message := "incorrect empty slice declaration"
    suggestedFixes := [
      { message := "use var"
        textEdits := [
          { pos := n.pos
            endP := n.endP
            newText := "var " ++ sliceName ++ " []" ++ eltName }] }] }

/-- The per-node callback passed to `ins.Preorder` in `run`
(`src/nitme.go`): the three short-circuiting filters, then the two
unchecked extractions, then `report`.  The returned list holds the
diagnostics handed to `pass.Report` during the call (empty on a filter
failure); `Except.error` models a Go panic (failed unchecked type
assertion or out-of-range index). -/
def processNode (assignment : AssignStmt) : Except String (List Diagnostic) :=
  match assignment.rhs.head? with
  | none => Except.error "runtime error: index out of range"
  | some rhs0 =>
    match rhs0 with
    | Expr.compositeLit typ elts _ _ =>
      match elts with
      | some _ => Except.ok []
      | none =>
        match typ with
        | Expr.arrayType _ eltTy _ _ =>
          match assignment.lhs.head? with
          | none => Except.error "runtime error: index out of range"
          | some lhs0 =>
            match lhs0 with
            | Expr.ident name _ _ =>
              match eltTy with
              | Expr.ident eltName _ _ =>
                Except.ok [report assignment name eltName]
              | _ =>
                Except.error "interface conversion: element type is not an Ident"
            | _ =>
              Except.error "interface conversion: assignment target is not an Ident"
        | _ => Except.ok []
    | _ => Except.ok []

/-- A syntax-tree node as seen by the traversal driver.  The inspector's
node filter in `run` requests only `*ast.AssignStmt` nodes, so the
callback runs exactly on the `assignStmt` nodes; declarations (such as
`var x []int`, an `*ast.DeclStmt`) and all other node kinds are never
handed to the callback. -/
inductive Node where
  | assignStmt (a : AssignStmt)
  /-- A declaration statement (`*ast.DeclStmt`), carrying its source
  text; not of assignment kind, so the node filter skips it. -/
  | declStmt (text : String)
  | otherNode

/-- The traversal of `run` (`src/nitme.go`): `ins.Preorder` invokes the
callback on every node that passes the `*ast.AssignStmt` filter, in
document order.  A panic in the callback unwinds through `Preorder`, so an
error aborts the traversal: the remaining nodes are not visited and their
diagnostics are lost. -/
def run : List Node → Except String (List Diagnostic)
  | [] => Except.ok []
  | Node.assignStmt a :: rest =>
    match processNode a with
    | Except.error e => Except.error e
    | Except.ok ds =>
      match run rest with
      | Except.error e => Except.error e
      | Except.ok ds' => Except.ok (ds ++ ds')
  | Node.declStmt _ :: rest => run rest
  | Node.otherNode :: rest => run rest

/-- Number of diagnostics handed to the reporting sink by one per-node
invocation: each `Except.ok` element is one `pass.Report` call; a panic
(`Except.error`) hands over nothing. -/
def emittedCount : Except String (List Diagnostic) → Nat
  | Except.ok ds => ds.length
  | Except.error _ => 0

/-- The analysis pass state visible to `src/nitme.go`: the syntax tree
being traversed and the reporting sink (`pass.Report` appends to it).
The callback in `run` only reads tree-node fields and calls
`pass.Report`; no statement in `src/nitme.go` writes to any node. -/
structure Pass where
  tree : List Node
  reports : List Diagnostic

/-- One invocation of the analyzer on a pass: traverse the tree and
append the emitted diagnostics to the reporting sink.  The source
contains no write to any tree node (it only reads fields and calls
`pass.Report`), so the state transformer threads the tree through. -/
def runPass (p : Pass) : Except String Pass :=
  match run p.tree with
  | Except.error e => Except.error e
  | Except.ok ds => Except.ok { tree := p.tree, reports := p.reports ++ ds }

/-- Modelled from the spec: the external parser (an out-of-scope
collaborator; the repository only consumes `go/parser` output) maps a
zero-value declaration of the form `var x []T` — the replacement text the
fix builder emits — to a declaration statement node, not an assignment
node.  Text of any other shape is abstracted as some non-assignment node;
what matters for the round-trip property is only that the replacement
text re-parses to a node the assignment filter rejects. -/
def reparse (s : String) : Node :=
  if s.data.take 4 = ['v', 'a', 'r', ' '] then Node.declStmt s else Node.otherNode

/-- The statement `incorrect := []int{}` from the repository's test data,
at representative offsets: `incorrect` spans 100-109, the literal
`[]int{}` spans 113-120 with element type `int` at 115-118. -/
def assignGood : AssignStmt :=
  { lhs := [Expr.ident "incorrect" 100 109]
    tok := Tok.define
    rhs := [Expr.compositeLit
      (Expr.arrayType none (Expr.ident "int" 115 118) 113 118) none 113 120] }

/-- A statement `incorrect = f()` occupying the same span as
`assignGood` but with a different operator token and a different
right-hand side: same position span, different node. -/
def assignOtherRhs : AssignStmt :=
  { lhs := [Expr.ident "incorrect" 100 109]
    tok := Tok.assign
    rhs := [Expr.otherExpr 113 120] }

/-- The statement `m[0] = []int{}`: all three filters pass (`Rhs[0]` is a
composite literal, nil `Elts`, array type) but `Lhs[0]` is an index
expression, not an identifier. -/
def assignBadTarget : AssignStmt :=
  { lhs := [Expr.otherExpr 0 4]
    tok := Tok.assign
    rhs := [Expr.compositeLit
      (Expr.arrayType none (Expr.ident "int" 9 12) 7 12) none 7 14] }

/-- The statement `a, b := []int{}, []int{}`: two targets (`a` at 10-11,
`b` at 13-14) and two values (spans 18-25 and 27-34). -/
def assignMulti : AssignStmt :=
  { lhs := [Expr.ident "a" 10 11, Expr.ident "b" 13 14]
    tok := Tok.define
    rhs := [Expr.compositeLit
        (Expr.arrayType none (Expr.ident "int" 20 23) 18 23) none 18 25,
      Expr.compositeLit
        (Expr.arrayType none (Expr.ident "int" 29 32) 27 32) none 27 34] }

/-- The statement `x := [3]int{}`: the declared type is a fixed-size
array type, i.e. an `*ast.ArrayType` whose `Len` field is the basic
literal `3` (span 6-7); the whole statement spans 0-13. -/
def assignFixedArr : AssignStmt :=
  { lhs := [Expr.ident "x" 0 1]
    tok := Tok.define
    rhs := [Expr.compositeLit
      (Expr.arrayType (some (Expr.otherExpr 6 7)) (Expr.ident "int" 8 11) 5 11)
      none 5 13] }

/-- Inversion for the per-node callback: a non-panicking invocation hands
over either nothing or exactly the one diagnostic `report` builds. -/
theorem processNode_ok_shape (a : AssignStmt) (ds : List Diagnostic)
    (h : processNode a = Except.ok ds) :
    ds = [] ∨ ∃ name eltName, ds = [report a name eltName] := by
  unfold processNode at h
  repeat' split at h
  all_goals simp_all
  all_goals exact Or.inr ⟨_, _, h.symm⟩

/-- The modelled parser sends every string of the form `var ...` to a
declaration node. -/
theorem reparse_var_decl (r : String) :
    reparse ("var " ++ r) = Node.declStmt ("var " ++ r) := by
  unfold reparse
  rw [String.data_append]
  have h4 : "var ".data = ['v', 'a', 'r', ' '] := rfl
  rw [h4]
  rfl

/-- C1: a single-target assignment whose right-hand side is a composite
literal with nil `Elts` and an array declared type with identifier element
type produces exactly one diagnostic: message "incorrect empty slice
declaration", one fix labeled "use var", one text edit spanning the whole
statement (start of the target, `lp`, to end of the literal, `ce`) whose
replacement is `"var " ++ name ++ " []" ++ eltName`. -/
theorem C1_match_produces_exact_diagnostic (tok : Tok) (name eltName : String)
    (lp le ep ee tp te cp ce : Pos) (b : Option Expr) :
    processNode
      { lhs := [Expr.ident name lp le]
        tok := tok
        rhs := [Expr.compositeLit
          (Expr.arrayType b (Expr.ident eltName ep ee) tp te) none cp ce] }
    = Except.ok [
      { pos := lp
        message := "incorrect empty slice declaration"
        suggestedFixes := [
          { message := "use var"
            textEdits := [
              { pos := lp, endP := ce
                newText := "var " ++ name ++ " []" ++ eltName }] }] }] := rfl

/-- C2: when any of the three matcher filters fails — the first
right-hand-side expression is not a composite literal, or the literal's
element sequence is present (even empty), or its declared type is not an
array type — the invocation returns normally with no diagnostic and no
panic. -/
theorem C2_filter_failure_silent (a : AssignStmt) (rhs0 : Expr)
    (h0 : a.rhs.head? = some rhs0)
    (h : (∀ typ elts p e, rhs0 ≠ Expr.compositeLit typ elts p e)
      ∨ (∃ typ l p e, rhs0 = Expr.compositeLit typ (some l) p e)
      ∨ (∃ typ elts p e, rhs0 = Expr.compositeLit typ elts p e ∧
          ∀ al elt tp tee, typ ≠ Expr.arrayType al elt tp tee)) :
    processNode a = Except.ok [] := by
  unfold processNode
  rw [h0]
  rcases h with hni | ⟨typ, l, p, e, rfl⟩ | ⟨typ, elts, p, e, rfl, hna⟩
  · cases rhs0 with
    | compositeLit t el q f => exact absurd rfl (hni t el q f)
    | ident n q f => rfl
    | arrayType al el q f => rfl
    | mapType k v q f => rfl
    | otherExpr q f => rfl
  · rfl
  · cases elts with
    | some l => rfl
    | none =>
      cases typ with
      | arrayType al el tq tf => exact absurd rfl (hna al el tq tf)
      | ident n q f => rfl
      | compositeLit t el q f => rfl
      | mapType k v q f => rfl
      | otherExpr q f => rfl

/-- Witness for C2 at the statement `x := f()` (right-hand side is a call
expression, not a composite literal): no diagnostic, no panic. -/
theorem C2_filter_failure_silent_witness :
    processNode
      { lhs := [Expr.ident "x" 0 1], tok := Tok.define,
        rhs := [Expr.otherExpr 5 9] } = Except.ok [] :=
  C2_filter_failure_silent _ (Expr.otherExpr 5 9) rfl
    (Or.inl fun _ _ _ _ h => Expr.noConfusion h)

/-- C3 counterexample: the claim says a node that passes the three
filters but has a non-identifier target aborts alone and "the traversal
of all other nodes still completes".  On `m[0] = []int{}` followed by
`incorrect := []int{}`, the unchecked assertion `Lhs[0].(*ast.Ident)`
panics and the panic unwinds through `Preorder`: the whole traversal
aborts and the second node's diagnostic — which it produces when visited
on its own, as the second conjunct shows — is never emitted. -/
theorem C3_counterexample :
    run [Node.assignStmt assignBadTarget, Node.assignStmt assignGood]
      = Except.error "interface conversion: assignment target is not an Ident"
    ∧ run [Node.assignStmt assignGood] = Except.ok [
      { pos := 100
        message := "incorrect empty slice declaration"
        suggestedFixes := [
          { message := "use var"
            textEdits := [
              { pos := 100, endP := 120,
                newText := "var incorrect []int" }] }] }] :=
  ⟨rfl, rfl⟩

/-- C3 amended: when the three filters pass but the first target (or the
array element type) is not a plain identifier, the node's processing
aborts with an attributable runtime error and no diagnostic is produced
for it — but the panic propagates out of the callback, so the remaining
nodes of the traversal are not processed. -/
theorem C3_amended_panic_aborts_traversal (a : AssignStmt) (rest : List Node)
    (b : Option Expr) (eltTy : Expr) (tp tee cp ce : Pos) (lhs0 : Expr)
    (hr : a.rhs.head? =
      some (Expr.compositeLit (Expr.arrayType b eltTy tp tee) none cp ce))
    (hl : a.lhs.head? = some lhs0)
    (hbad : (∀ n p e, lhs0 ≠ Expr.ident n p e)
      ∨ ((∃ n p e, lhs0 = Expr.ident n p e) ∧ ∀ n p e, eltTy ≠ Expr.ident n p e)) :
    ∃ msg, processNode a = Except.error msg ∧
      run (Node.assignStmt a :: rest) = Except.error msg := by
  have hpn : ∃ msg, processNode a = Except.error msg := by
    unfold processNode
    rw [hr, hl]
    rcases hbad with hni | ⟨⟨n, p, e, rfl⟩, hne⟩
    · cases lhs0 with
      | ident n q f => exact absurd rfl (hni n q f)
      | compositeLit t el q f => exact ⟨_, rfl⟩
      | arrayType al el q f => exact ⟨_, rfl⟩
      | mapType k v q f => exact ⟨_, rfl⟩
      | otherExpr q f => exact ⟨_, rfl⟩
    · cases eltTy with
      | ident n q f => exact absurd rfl (hne n q f)
      | compositeLit t el q f => exact ⟨_, rfl⟩
      | arrayType al el q f => exact ⟨_, rfl⟩
      | mapType k v q f => exact ⟨_, rfl⟩
      | otherExpr q f => exact ⟨_, rfl⟩
  obtain ⟨msg, hm⟩ := hpn
  exact ⟨msg, hm, by simp [run, hm]⟩

/-- Witness for the amended C3 at `m[0] = []int{}` followed by one more
node: the invocation errors and the error propagates through `run`. -/
theorem C3_amended_panic_aborts_traversal_witness :
    ∃ msg, processNode assignBadTarget = Except.error msg ∧
      run (Node.assignStmt assignBadTarget :: [Node.assignStmt assignGood])
        = Except.error msg :=
  C3_amended_panic_aborts_traversal assignBadTarget [Node.assignStmt assignGood]
    none (Expr.ident "int" 9 12) 7 12 7 14 (Expr.otherExpr 0 4) rfl rfl
    (Or.inl fun _ _ _ h => Expr.noConfusion h)

/-- C4 counterexample: the claim says `a, b := []int{}, []int{}` is not
matched and produces no diagnostic.  The code inspects only `Rhs[0]` and
`Lhs[0]`, so this statement passes all filters and exactly one diagnostic
is handed to the sink, whose fix replaces the entire statement (offsets
10 to 34) with `var a []int`, dropping `b` and the second value. -/
theorem C4_counterexample :
    processNode assignMulti = Except.ok [
      { pos := 10
        message := "incorrect empty slice declaration"
        suggestedFixes := [
          { message := "use var"
            textEdits := [
              { pos := 10, endP := 34, newText := "var a []int" }] }] }]
    ∧ emittedCount (processNode assignMulti) = 1 :=
  ⟨rfl, rfl⟩

/-- C4 amended: an assignment whose first target is a plain identifier
and whose first value is a composite literal with nil `Elts` and an array
declared type with identifier element type IS matched, regardless of any
further targets or values: one diagnostic is produced, built from the
first target and first value only, whose single edit spans the whole
statement. -/
theorem C4_amended_first_target_matched (st : AssignStmt) (name eltName : String)
    (lp le ep ee tp tee cp ce : Pos) (b : Option Expr) (lrest rrest : List Expr)
    (hl : st.lhs = Expr.ident name lp le :: lrest)
    (hr : st.rhs = Expr.compositeLit
      (Expr.arrayType b (Expr.ident eltName ep ee) tp tee) none cp ce :: rrest) :
    processNode st = Except.ok [
      { pos := st.pos
        message := "incorrect empty slice declaration"
        suggestedFixes := [
          { message := "use var"
            textEdits := [
              { pos := st.pos, endP := st.endP
                newText := "var " ++ name ++ " []" ++ eltName }] }] }] := by
  rcases st with ⟨lhs, tok, rhs⟩
  dsimp only at hl hr
  subst hl
  subst hr
  rfl

/-- Witness for the amended C4 at `a, b := []int{}, []int{}`. -/
theorem C4_amended_first_target_matched_witness :
    processNode assignMulti = Except.ok [
      { pos := assignMulti.pos
        message := "incorrect empty slice declaration"
        suggestedFixes := [
          { message := "use var"
            textEdits := [
              { pos := assignMulti.pos, endP := assignMulti.endP
                newText := "var " ++ "a" ++ " []" ++ "int" }] }] }] :=
  C4_amended_first_target_matched assignMulti "a" "int"
    10 11 20 23 18 23 18 25 none [Expr.ident "b" 13 14]
    [Expr.compositeLit
      (Expr.arrayType none (Expr.ident "int" 29 32) 27 32) none 27 34]
    rfl rfl

/-- C5: evaluation of the code at `x := [3]int{}`.  The declared type of
the literal is an `*ast.ArrayType` whose `Len` field is the literal `3`;
the type assertion `composite.Type.(*ast.ArrayType)` never inspects
`Len`, so the statement matches and the analyzer reports it, offering the
fix `var x []int` — even though `[3]int{}` declares a fixed-size array,
not a slice, and the rewrite would change the variable's type. -/
theorem C5_fixed_size_array_reported :
    processNode assignFixedArr = Except.ok [
      { pos := 0
        message := "incorrect empty slice declaration"
        suggestedFixes := [
          { message := "use var"
            textEdits := [
              { pos := 0, endP := 13, newText := "var x []int" }] }] }] := rfl

/-- C6: for any matched assignment, every text edit of every suggested fix
of the produced diagnostic carries replacement text that re-parses to a
declaration statement node; the assignment filter rejects that node, so
running the analyzer over the re-parsed statement produces no diagnostic —
the fix does not re-trigger. -/
theorem C6_fix_does_not_retrigger (a : AssignStmt) (d : Diagnostic)
    (fix : SuggestedFix) (te : TextEdit)
    (h : processNode a = Except.ok [d])
    (hf : fix ∈ d.suggestedFixes) (hte : te ∈ fix.textEdits) :
    reparse te.newText = Node.declStmt te.newText ∧
    run [reparse te.newText] = Except.ok [] := by
  obtain h0 | ⟨name, eltName, he⟩ := processNode_ok_shape a [d] h
  · exact absurd h0 (by simp)
  · simp only [List.cons.injEq, and_true] at he
    subst he
    simp only [report, List.mem_singleton] at hf
    subst hf
    simp only [List.mem_singleton] at hte
    subst hte
    have hs : ("var " ++ name ++ " []" ++ eltName)
        = "var " ++ (name ++ (" []" ++ eltName)) := by
      rw [String.append_assoc, String.append_assoc]
    constructor
    · show reparse ("var " ++ name ++ " []" ++ eltName)
        = Node.declStmt ("var " ++ name ++ " []" ++ eltName)
      rw [hs]
      exact reparse_var_decl _
    · show run [reparse ("var " ++ name ++ " []" ++ eltName)] = Except.ok []
      rw [hs, reparse_var_decl]
      rfl

/-- Witness for C6 at `incorrect := []int{}`: its fix text
`var incorrect []int` re-parses to a declaration and re-triggers
nothing. -/
theorem C6_fix_does_not_retrigger_witness :
    reparse "var incorrect []int" = Node.declStmt "var incorrect []int" ∧
    run [reparse "var incorrect []int"] = Except.ok [] :=
  C6_fix_does_not_retrigger assignGood (report assignGood "incorrect" "int")
    { message := "use var"
      textEdits := [{ pos := 100, endP := 120, newText := "var incorrect []int" }] }
    { pos := 100, endP := 120, newText := "var incorrect []int" }
    rfl (by decide) (by decide)

/-- C7: the fix builder is a function of exactly the matched node's
position span and the two extracted names: two nodes with equal `Pos()`
and `End()` yield byte-identical diagnostic, fix and edit content for the
same names, whatever else (operator token, expression shapes) differs.
Two runs on the very same input coincide definitionally, since the
builder reads no clock, counter or other hidden state. -/
theorem C7_report_deterministic (a b : AssignStmt) (sliceName eltName : String)
    (hp : a.pos = b.pos) (he : a.endP = b.endP) :
    report a sliceName eltName = report b sliceName eltName := by
  unfold report
  rw [hp, he]

/-- Witness for C7: `incorrect := []int{}` and the differently-shaped,
differently-tokened `incorrect = f()` occupy the same span, so their
built diagnostics are byte-identical. -/
theorem C7_report_deterministic_witness :
    report assignGood "incorrect" "int" = report assignOtherRhs "incorrect" "int" :=
  C7_report_deterministic assignGood assignOtherRhs "incorrect" "int" rfl rfl

/-- C8: one per-node invocation hands the sink at most one diagnostic:
none when a filter fails (or the invocation panics), exactly the one
`report` builds when all filters pass. -/
theorem C8_at_most_one_diagnostic (a : AssignStmt) :
    emittedCount (processNode a) ≤ 1 := by
  cases hr : processNode a with
  | error e => simp [emittedCount]
  | ok ds =>
    rcases processNode_ok_shape a ds hr with rfl | ⟨n, e, rfl⟩ <;>
      simp [emittedCount]

/-- C9: an invocation of the analyzer never mutates the syntax tree: the
callback in `src/nitme.go` only reads node fields (type assertions, field
projections, `Pos()` / `End()`) and calls `pass.Report`, so the tree
component of the pass state after a completed invocation is the tree it
started with. -/
theorem C9_tree_unchanged (p p' : Pass) (h : runPass p = Except.ok p') :
    p'.tree = p.tree := by
  unfold runPass at h
  split at h
  · cases h
  · cases h
    rfl

/-- Witness for C9: running the pass on the one-node tree holding
`incorrect := []int{}` emits its diagnostic and leaves the tree
unchanged. -/
theorem C9_tree_unchanged_witness :
    (Pass.mk [Node.assignStmt assignGood]
      [{ pos := 100
         message := "incorrect empty slice declaration"
         suggestedFixes := [
           { message := "use var"
             textEdits := [
               { pos := 100, endP := 120,
                 newText := "var incorrect []int" }] }] }]).tree
    = (Pass.mk [Node.assignStmt assignGood] []).tree :=
  C9_tree_unchanged (Pass.mk [Node.assignStmt assignGood] []) _ rfl

/-- C10: the matcher never inspects the assignment operator token: the
per-node result is invariant under replacing the token, so a plain
assignment `x = []int{}` is processed exactly like the short declaration
`x := []int{}`, with the same diagnostic and the same `var x []int`
replacement. -/
theorem C10_tok_not_inspected (lhs rhs : List Expr) (t t' : Tok) :
    processNode { lhs := lhs, tok := t, rhs := rhs }
      = processNode { lhs := lhs, tok := t', rhs := rhs } := rfl

end Nitme
